import Mathlib

/-!
Verification of the document lifecycle engine of the re-software invoice
backend (`app/models/document.py`, `app/services/document_service.py`,
`app/repositories/document_repository.py`).

Monetary values are modelled as exact rationals; Python's `round(x, 2)`
is modelled as rounding to two decimal places with ties going to the
even hundredth (round-half-even, the behaviour of Python's `round`).
Wall-clock dates produced by `datetime.utcnow()` and the due-date
arithmetic are modelled as plain strings supplied by the environment.
-/

attribute [local semireducible] Rat.mul Rat.add Rat.inv Rat.sub Rat.ofScientific

deriving instance DecidableEq for Except

namespace ReSoftware

/-- Round a rational to the nearest integer, ties to even
(the rounding mode of Python's builtin `round`). -/
def rhe (x : ℚ) : ℤ :=
  let f : ℤ := Rat.floor x
  let r : ℚ := x - (f : ℚ)
  if r < 1/2 then f
  else if 1/2 < r then f + 1
  else if f % 2 = 0 then f else f + 1

/-- Python's `round(x, 2)`: round to two decimal places, ties to even. -/
def round2 (x : ℚ) : ℚ := (rhe (x * 100) : ℚ) / 100

/-- `document.py`: `DocumentType` string constants. -/
inductive DocumentType where
  | INVOICE
  | QUOTE
  | DELIVERY_NOTE
  | ORDER_CONFIRMATION
  | PARTIAL_INVOICE
  | CREDIT_NOTE
  | CANCELLATION
deriving DecidableEq, Fintype, Repr

/-- `document.py`: `DocumentStatus` string constants. -/
inductive DocumentStatus where
  | DRAFT
  | SENT
  | PAID
  | PARTIALLY_PAID
  | CANCELLED
  | OVERDUE
  | ACCEPTED
  | REJECTED
  | CONVERTED
deriving DecidableEq, Fintype, Repr

/-- A line item dict as returned by `new_line_item` in `document.py`;
the intermediate `subtotal` is computed there but not among the
returned keys. -/
structure LineItem where
  product_id : String
  name : String
  description : String
  quantity : ℚ
  unit : String
  unit_price : ℚ
  vat_rate : ℚ
  discount_percent : ℚ
  discount_amount : ℚ
  net_amount : ℚ
  vat_amount : ℚ
  gross_amount : ℚ
deriving DecidableEq, Repr

/-- The `totals` sub-document of a document. -/
structure Totals where
  net : ℚ
  vat : ℚ
  gross : ℚ
  paid_amount : ℚ
  remaining_amount : ℚ
deriving DecidableEq, Repr

/-- A payment record; the base record written by `add_payment` has no
`reference` key, modelled here as the empty string. -/
structure Payment where
  amount : ℚ
  date : String
  method : String
  reference : String
deriving DecidableEq, Repr

/-- A reminder record. -/
structure Reminder where
  level : ℕ
  date : String
  fee : ℚ
deriving DecidableEq, Repr

/-- The document dict produced by `new_document` in `document.py`
(MongoDB `_id` and the `created_at`/`updated_at` timestamps are kept
outside the model; ids are passed to operations as explicit
parameters, as in the Python signatures). -/
structure Document where
  company_id : String
  customer_id : String
  document_type : DocumentType
  document_number : String
  status : DocumentStatus
  items : List LineItem
  totals : Totals
  payments : List Payment
  reminders : List Reminder
  is_kleinunternehmer : Bool
  notes : String
  payment_terms_days : ℤ
  issue_date : String
  service_date : String
  due_date : String
  pdf_path : String
  related_document_id : String
deriving DecidableEq, Repr

/-- `document.py::new_line_item`: build one line item with
step-by-step rounded derived amounts. -/
def new_line_item (product_id name description : String) (quantity : ℚ)
    (unit : String) (unit_price vat_rate discount_percent : ℚ) : LineItem :=
  let subtotal := round2 (quantity * unit_price)
  let discount_amount := round2 (subtotal * (discount_percent / 100))
  let net_amount := round2 (subtotal - discount_amount)
  let vat_amount := round2 (net_amount * vat_rate)
  let gross_amount := round2 (net_amount + vat_amount)
  { product_id := product_id
    name := name
    description := description
    quantity := quantity
    unit := unit
    unit_price := unit_price
    vat_rate := vat_rate
    discount_percent := discount_percent
    discount_amount := discount_amount
    net_amount := net_amount
    vat_amount := vat_amount
    gross_amount := gross_amount }

/-- `new_document`'s per-item VAT zeroing applied when the company is a
Kleinunternehmer. -/
def zeroVatItem (it : LineItem) : LineItem :=
  { it with vat_amount := 0, gross_amount := it.net_amount }

/-- `document.py::new_document`: build a fresh document dict with
aggregated totals, status DRAFT, empty payment and reminder lists. -/
def new_document (company_id customer_id : String)
    (document_type : DocumentType) (document_number : String)
    (items : List LineItem) (is_kleinunternehmer : Bool) (notes : String)
    (payment_terms_days : ℤ) (issue_date service_date due_date : String)
    (pdf_path related_document_id : String) : Document :=
  let total_net := round2 ((items.map LineItem.net_amount).sum)
  let total_vat :=
    if is_kleinunternehmer then 0
    else round2 ((items.map LineItem.vat_amount).sum)
  let total_gross := round2 (total_net + total_vat)
  let items1 := if is_kleinunternehmer then items.map zeroVatItem else items
  let total_net1 :=
    if document_type = DocumentType.CREDIT_NOTE ∨
       document_type = DocumentType.CANCELLATION then -|total_net| else total_net
  let total_vat1 :=
    if document_type = DocumentType.CREDIT_NOTE ∨
       document_type = DocumentType.CANCELLATION then -|total_vat| else total_vat
  let total_gross1 :=
    if document_type = DocumentType.CREDIT_NOTE ∨
       document_type = DocumentType.CANCELLATION then -|total_gross| else total_gross
  { company_id := company_id
    customer_id := customer_id
    document_type := document_type
    document_number := document_number
    status := DocumentStatus.DRAFT
    items := items1
    totals :=
      { net := total_net1
        vat := total_vat1
        gross := total_gross1
        paid_amount := 0
        remaining_amount := total_gross1 }
    payments := []
    reminders := []
    is_kleinunternehmer := is_kleinunternehmer
    notes := notes
    payment_terms_days := payment_terms_days
    issue_date := issue_date
    service_date := service_date
    due_date := due_date
    pdf_path := pdf_path
    related_document_id := related_document_id }

/-- The business-rule rejections raised as `HTTPException`s by
`document_service.py`, one constructor per distinct rejection kind;
`invalidTransition` carries the document type and the current and
target statuses, as the Python detail string does. -/
inductive DocErr where
  | notFound
  | invalidState
  | overpayment
  | capExceeded
  | limitExceeded
  | noFields
  | invalidTransition (t : DocumentType) (current target : DocumentStatus)
deriving DecidableEq, Repr

/-- The inner `_invoice_transitions` dict of
`DocumentService._validate_status_transition`, as a function from the
current status to the list of allowed targets (a missing key is the
empty list, matching `dict.get(current, [])`). -/
def invoiceTransitions : DocumentStatus → List DocumentStatus
  | .DRAFT => [.SENT, .CANCELLED]
  | .SENT => [.PAID, .PARTIALLY_PAID, .OVERDUE, .CANCELLED]
  | .PARTIALLY_PAID => [.PAID, .OVERDUE, .CANCELLED]
  | .OVERDUE => [.PAID, .PARTIALLY_PAID, .CANCELLED]
  | _ => []

/-- The `allowed` dict of `_validate_status_transition`. -/
def transitionsFor : DocumentType → DocumentStatus → List DocumentStatus
  | .INVOICE, c => invoiceTransitions c
  | .PARTIAL_INVOICE, c => invoiceTransitions c
  | .QUOTE, .DRAFT => [.SENT, .CANCELLED]
  | .QUOTE, .SENT => [.ACCEPTED, .REJECTED, .CANCELLED]
  | .QUOTE, .ACCEPTED => [.CONVERTED]
  | .QUOTE, _ => []
  | .DELIVERY_NOTE, .DRAFT => [.SENT, .CANCELLED]
  | .DELIVERY_NOTE, _ => []
  | .ORDER_CONFIRMATION, .DRAFT => [.SENT, .CANCELLED]
  | .ORDER_CONFIRMATION, _ => []
  | .CREDIT_NOTE, .DRAFT => [.SENT, .CANCELLED]
  | .CREDIT_NOTE, _ => []
  | .CANCELLATION, .DRAFT => [.SENT]
  | .CANCELLATION, _ => []

/-- `DocumentService._validate_status_transition`: accept the
transition when the target is in the per-type table, otherwise raise
an error naming the current and target statuses. -/
def validate_status_transition (t : DocumentType)
    (current target : DocumentStatus) : Except DocErr Unit :=
  if target ∈ transitionsFor t current then Except.ok ()
  else Except.error (DocErr.invalidTransition t current target)

/-- `DocumentRepository.add_payment`: push the payment record and
atomically increment `paid_amount` and decrement `remaining_amount`
by the payment's amount. -/
def repo_add_payment (doc : Document) (payment : Payment) : Document :=
  { doc with
    payments := doc.payments ++ [payment]
    totals := { doc.totals with
      paid_amount := doc.totals.paid_amount + payment.amount
      remaining_amount := doc.totals.remaining_amount - payment.amount } }

/-- `DocumentService._calc_totals`: recompute a totals dict from
resolved line items, zeroing VAT for Kleinunternehmer and negating for
credit notes and cancellations. -/
def calc_totals (items : List LineItem) (is_kleinunternehmer : Bool)
    (document_type : DocumentType) : Totals :=
  let total_net := round2 ((items.map LineItem.net_amount).sum)
  let total_vat :=
    if is_kleinunternehmer then 0
    else round2 ((items.map LineItem.vat_amount).sum)
  let total_gross := round2 (total_net + total_vat)
  let isNeg := document_type = DocumentType.CREDIT_NOTE ∨
               document_type = DocumentType.CANCELLATION
  { net := if isNeg then -|total_net| else total_net
    vat := if isNeg then -|total_vat| else total_vat
    gross := if isNeg then -|total_gross| else total_gross
    paid_amount := 0
    remaining_amount := if isNeg then -|total_gross| else total_gross }

/-- `settings.MAX_REMINDER_LEVEL` in `core/config.py` (hard-coded 3). -/
def MAX_REMINDER_LEVEL : ℕ := 3

/-- `add_payment`'s `payment_date = data.get("date") or utcnow()`:
an absent or empty request date falls back to today's date. -/
def payment_date_of (dateOpt : Option String) (today : String) : String :=
  match dateOpt with
  | some d => if d = "" then today else d
  | none => today

/-- `add_payment`'s status determination after the repository update:
PAID when the paid amount is within 0.01 of the absolute gross, else
PARTIALLY_PAID when anything was paid, else the status is kept. -/
def payment_status_after (updated : Document) : DocumentStatus :=
  if abs (updated.totals.paid_amount - |updated.totals.gross|) < 1/100 then
    DocumentStatus.PAID
  else if 0 < updated.totals.paid_amount then DocumentStatus.PARTIALLY_PAID
  else updated.status

/-- `add_payment`'s conditional status write: `update_one` is called
only when the computed status differs from the stored one. -/
def apply_status (u : Document) (s : DocumentStatus) : Document :=
  if s ≠ u.status then { u with status := s } else u

/-- The parent-invoice side of `add_payment`'s cascade: push a payment
of the child's absolute gross (with a reference string naming the
child's document number) and recompute the parent status with the
same PAID / PARTIALLY_PAID rule.  Returns the parent as finally
stored. -/
def cascade_parent_update (child : Document) (payment_date method : String)
    (parent : Document) : Document :=
  let parent1 := repo_add_payment parent
    { amount := |child.totals.gross|, date := payment_date, method := method,
      reference := "Abschlagsrechnung " ++ child.document_number }
  if abs (parent1.totals.paid_amount - |parent1.totals.gross|) < 1/100 then
    { parent1 with status := DocumentStatus.PAID }
  else if 0 < parent1.totals.paid_amount then
    { parent1 with status := DocumentStatus.PARTIALLY_PAID }
  else parent1

/-- The cascade block at the end of `add_payment`, as the effect it
has on the parent document: when the updated child is a
PARTIAL_INVOICE whose computed status is PAID and whose
`related_document_id` is non-empty, and the tenant-scoped lookup finds
a parent of type INVOICE, the parent receives the child's absolute
gross as a payment and a status update (``none`` in every other case,
including the swallowed lookup failure). -/
def cascade_result (updated1 : Document) (new_status : DocumentStatus)
    (payment_date method : String)
    (lookup : String → Option Document) : Option Document :=
  if updated1.document_type = DocumentType.PARTIAL_INVOICE ∧
     new_status = DocumentStatus.PAID ∧
     updated1.related_document_id ≠ "" then
    match lookup updated1.related_document_id with
    | none => none
    | some parent =>
      if parent.document_type = DocumentType.INVOICE then
        some (cascade_parent_update updated1 payment_date method parent)
      else none
  else none

/-- `DocumentService.add_payment`: record a payment on an invoice,
adjust the status, and cascade a payment to the parent invoice when a
PARTIAL_INVOICE just became PAID.  `lookup` models
`get_document(company_id, parent_id)` for the parent (``none`` is the
swallowed `HTTPException`: missing id or tenant mismatch); `dateOpt`
is the request's optional payment date and `today` the
`datetime.utcnow()` string.  Returns the updated child document and,
when the cascade ran, the parent document as finally stored. -/
def add_payment (doc : Document) (amount : ℚ) (dateOpt : Option String)
    (today method : String) (lookup : String → Option Document) :
    Except DocErr (Document × Option Document) :=
  if ¬(doc.document_type = DocumentType.INVOICE ∨
       doc.document_type = DocumentType.PARTIAL_INVOICE) then
    Except.error DocErr.invalidState
  else if doc.status = DocumentStatus.CANCELLED ∨
          doc.status = DocumentStatus.PAID ∨
          doc.status = DocumentStatus.DRAFT then
    Except.error DocErr.invalidState
  else if doc.totals.remaining_amount + 1/100 < amount then
    Except.error DocErr.overpayment
  else
    let payment_date := payment_date_of dateOpt today
    let updated := repo_add_payment doc
      { amount := amount, date := payment_date, method := method,
        reference := "" }
    let new_status := payment_status_after updated
    let updated1 := apply_status updated new_status
    Except.ok (updated1,
      cascade_result updated1 new_status payment_date method lookup)

/-- `DocumentService.add_reminder`: append a reminder of level
`existing count + 1`, bounded by `MAX_REMINDER_LEVEL`, and force the
status to OVERDUE unless already OVERDUE or PARTIALLY_PAID; `today`
models the `datetime.utcnow()` date string. -/
def add_reminder (doc : Document) (fee : ℚ) (today : String) :
    Except DocErr Document :=
  if ¬(doc.document_type = DocumentType.INVOICE ∨
       doc.document_type = DocumentType.PARTIAL_INVOICE) then
    Except.error DocErr.invalidState
  else if ¬(doc.status = DocumentStatus.SENT ∨
            doc.status = DocumentStatus.OVERDUE ∨
            doc.status = DocumentStatus.PARTIALLY_PAID) then
    Except.error DocErr.invalidState
  else
    let next_level := doc.reminders.length + 1
    if next_level > MAX_REMINDER_LEVEL then Except.error DocErr.limitExceeded
    else
      let updated :=
        { doc with reminders :=
            doc.reminders ++ [{ level := next_level, date := today, fee := fee }] }
      if ¬(updated.status = DocumentStatus.OVERDUE ∨
           updated.status = DocumentStatus.PARTIALLY_PAID) then
        Except.ok { updated with status := DocumentStatus.OVERDUE }
      else Except.ok updated

/-- `DocumentService._create_order_confirmation_from_quote`: build the
ORDER_CONFIRMATION document synthesized when a quote is accepted.
`order_number` is the freshly allocated number from the counter;
`envToday` and `envDue` are the fallback date strings computed from
`datetime.utcnow()` and `_calc_due_date` (used only when the quote's
own dates are empty). -/
def create_order_confirmation_from_quote (quote_id : String)
    (quote : Document) (order_number : String)
    (envToday envDue : String) : Document :=
  let issue_date := if quote.issue_date = "" then envToday else quote.issue_date
  let due_date := if quote.due_date = "" then envDue else quote.due_date
  new_document quote.company_id quote.customer_id
    DocumentType.ORDER_CONFIRMATION order_number quote.items
    quote.is_kleinunternehmer
    ("Auftragsbestätigung zu Angebot " ++ quote.document_number)
    quote.payment_terms_days issue_date quote.service_date due_date
    "" quote_id

/-- `DocumentService.update_status`: validate and apply the status
transition; when a QUOTE reaches ACCEPTED, also return the
ORDER_CONFIRMATION document created as a side effect. -/
def update_status (document_id : String) (doc : Document)
    (new_status : DocumentStatus) (order_number : String)
    (envToday envDue : String) :
    Except DocErr (Document × Option Document) :=
  match validate_status_transition doc.document_type doc.status new_status with
  | Except.error e => Except.error e
  | Except.ok _ =>
    let updated := { doc with status := new_status }
    if doc.document_type = DocumentType.QUOTE ∧
       new_status = DocumentStatus.ACCEPTED then
      Except.ok (updated,
        some (create_order_confirmation_from_quote document_id updated
          order_number envToday envDue))
    else Except.ok (updated, none)

/-- `DocumentService.create_partial_invoice` in the variant without
explicit items (the request carries only the gross `amount`; with
explicit items the same cap check runs before `_resolve_line_items`):
check the cap against the existing PARTIAL_INVOICE children, then
synthesize a single flat-rate line item whose net price is
back-computed from the requested gross at the company VAT rate.
`children` models `find_related_documents(company_id, document_id)`,
`is_kleinunternehmer` the company flag, `number` the freshly
allocated document number, `today` and `due` the environment date
strings. -/
def createPartialInvoice (document_id : String) (doc : Document)
    (children : List Document) (amount : ℚ) (is_kleinunternehmer : Bool)
    (number : String) (notes : String) (payment_terms_days : ℤ)
    (today due : String) : Except DocErr Document :=
  if doc.document_type ≠ DocumentType.INVOICE then
    Except.error DocErr.invalidState
  else if doc.status = DocumentStatus.CANCELLED then
    Except.error DocErr.invalidState
  else
    let existing :=
      children.filter (fun p => p.document_type = DocumentType.PARTIAL_INVOICE)
    let psum := (existing.map (fun p => |p.totals.gross|)).sum
    let original_gross := |doc.totals.gross|
    if original_gross + 1/100 < psum + amount then
      Except.error DocErr.capExceeded
    else
      let vat_rate : ℚ := if is_kleinunternehmer then 0 else 19/100
      let net_amount :=
        if vat_rate ≠ 0 then round2 (amount / (1 + vat_rate)) else amount
      let item := new_line_item "" ("Abschlag zu " ++ doc.document_number) ""
        1 "Pauschal" net_amount vat_rate 0
      Except.ok (new_document doc.company_id doc.customer_id
        DocumentType.PARTIAL_INVOICE number [item] is_kleinunternehmer
        (if notes = "" then "Abschlagsrechnung zu " ++ doc.document_number
         else notes)
        payment_terms_days today "" due "" document_id)

/-- Rounding a rational that is already an integer is the identity. -/
lemma rhe_intCast (n : ℤ) : rhe (n : ℚ) = n := by
  have hf : Rat.floor (n : ℚ) = n := by
    rw [Rat.floor_def']
    simp
  norm_num [rhe, hf]

/-- `round2` is the identity on exact multiples of a hundredth. -/
lemma round2_intDiv (n : ℤ) : round2 ((n : ℚ) / 100) = (n : ℚ) / 100 := by
  have h : ((n : ℚ) / 100) * 100 = (n : ℚ) := by
    field_simp
  rw [round2, h, rhe_intCast]

/-- The per-type transition table exactly as the specification's state
machine section enumerates it, written independently of
`transitionsFor` as a list of (current, target) edges. -/
def specAllowedTransitions (t : DocumentType) :
    List (DocumentStatus × DocumentStatus) :=
  match t with
  | .INVOICE | .PARTIAL_INVOICE =>
    [(.DRAFT, .SENT), (.DRAFT, .CANCELLED),
     (.SENT, .PAID), (.SENT, .PARTIALLY_PAID), (.SENT, .OVERDUE),
     (.SENT, .CANCELLED),
     (.PARTIALLY_PAID, .PAID), (.PARTIALLY_PAID, .OVERDUE),
     (.PARTIALLY_PAID, .CANCELLED),
     (.OVERDUE, .PAID), (.OVERDUE, .PARTIALLY_PAID), (.OVERDUE, .CANCELLED)]
  | .QUOTE =>
    [(.DRAFT, .SENT), (.DRAFT, .CANCELLED),
     (.SENT, .ACCEPTED), (.SENT, .REJECTED), (.SENT, .CANCELLED),
     (.ACCEPTED, .CONVERTED)]
  | .DELIVERY_NOTE | .ORDER_CONFIRMATION | .CREDIT_NOTE =>
    [(.DRAFT, .SENT), (.DRAFT, .CANCELLED)]
  | .CANCELLATION => [(.DRAFT, .SENT)]

/-- The one-line-item specimen used in the specification's worked
scenario: quantity 10, unit price 95, VAT 19 %, discount 5 %. -/
def specimenItem : LineItem := new_line_item "" "Pos" "" 10 "Stk" 95 (19/100) 5

/-- The specimen invoice built from `specimenItem` (gross 1073.98). -/
def specimenInvoice : Document :=
  new_document "c1" "cust1" DocumentType.INVOICE "INV-000001" [specimenItem]
    false "" 14 "2026-01-01" "" "2026-01-15" "" ""

/-- The specimen invoice after the DRAFT→SENT transition. -/
def specimenInvoiceSent : Document :=
  { specimenInvoice with status := DocumentStatus.SENT }

/-- A parent-lookup collaborator that never finds a document. -/
def noParent : String → Option Document := fun _ => none

end ReSoftware

namespace ReSoftware

/-- C1: for every line item accepted at document creation
(quantity > 0, discount in [0,100]), the derived fields stored by
`new_line_item` satisfy the chained equations
`subtotal = round(quantity*unitPrice, 2)`,
`discountAmount = round(subtotal*discountPercent/100, 2)`,
`netAmount = round(subtotal - discountAmount, 2)`,
`vatAmount = round(netAmount*vatRate, 2)`,
`grossAmount = round(netAmount + vatAmount, 2)`, each rounded at its
own derivation step. -/
theorem c1_line_item_derived_fields (product_id name description unit : String)
    (quantity unit_price vat_rate discount_percent : ℚ)
    (hq : 0 < quantity) (hd0 : 0 ≤ discount_percent)
    (hd1 : discount_percent ≤ 100) :
    (new_line_item product_id name description quantity unit unit_price
        vat_rate discount_percent).discount_amount =
      round2 (round2 (quantity * unit_price) * (discount_percent / 100)) ∧
    (new_line_item product_id name description quantity unit unit_price
        vat_rate discount_percent).net_amount =
      round2 (round2 (quantity * unit_price) -
        (new_line_item product_id name description quantity unit unit_price
          vat_rate discount_percent).discount_amount) ∧
    (new_line_item product_id name description quantity unit unit_price
        vat_rate discount_percent).vat_amount =
      round2 ((new_line_item product_id name description quantity unit
          unit_price vat_rate discount_percent).net_amount * vat_rate) ∧
    (new_line_item product_id name description quantity unit unit_price
        vat_rate discount_percent).gross_amount =
      round2 ((new_line_item product_id name description quantity unit
          unit_price vat_rate discount_percent).net_amount +
        (new_line_item product_id name description quantity unit unit_price
          vat_rate discount_percent).vat_amount) :=
  ⟨rfl, rfl, rfl, rfl⟩

/-- C1 witness: the specification's worked scenario — quantity 10,
unit price 95, VAT 0.19, discount 5 % gives subtotal 950.00,
discount 47.50, net 902.50, VAT 171.48, gross 1073.98 — together with
an instantiation of the general theorem at that input. -/
theorem c1_line_item_derived_fields_witness :
    (round2 (10 * 95) = 950 ∧
     specimenItem.discount_amount = 47.5 ∧
     specimenItem.net_amount = 902.5 ∧
     specimenItem.vat_amount = 171.48 ∧
     specimenItem.gross_amount = 1073.98) ∧
    ((new_line_item "" "Pos" "" 10 "Stk" 95 (19/100) 5).discount_amount =
      round2 (round2 (10 * 95) * (5 / 100)) ∧
     (new_line_item "" "Pos" "" 10 "Stk" 95 (19/100) 5).net_amount =
      round2 (round2 (10 * 95) -
        (new_line_item "" "Pos" "" 10 "Stk" 95 (19/100) 5).discount_amount) ∧
     (new_line_item "" "Pos" "" 10 "Stk" 95 (19/100) 5).vat_amount =
      round2 ((new_line_item "" "Pos" "" 10 "Stk" 95 (19/100) 5).net_amount *
        (19/100)) ∧
     (new_line_item "" "Pos" "" 10 "Stk" 95 (19/100) 5).gross_amount =
      round2 ((new_line_item "" "Pos" "" 10 "Stk" 95 (19/100) 5).net_amount +
        (new_line_item "" "Pos" "" 10 "Stk" 95 (19/100) 5).vat_amount)) :=
  ⟨by decide,
   c1_line_item_derived_fields "" "Pos" "" "Stk" 10 95 (19/100) 5
     (by decide) (by decide) (by decide)⟩

/-- C5: `_validate_status_transition` succeeds exactly on the edges of
the per-type transition table of the specification's state machine,
and every other (current, target) pair fails with an InvalidTransition
error naming the current and target status. -/
theorem c5_status_transition_table :
    ∀ (t : DocumentType) (current target : DocumentStatus),
      validate_status_transition t current target =
        (if (current, target) ∈ specAllowedTransitions t then Except.ok ()
         else Except.error (DocErr.invalidTransition t current target)) := by
  decide

/-- C8: for CREDIT_NOTE and CANCELLATION documents, however built
(`new_document` at creation or `_calc_totals` on update), net, vat and
gross totals are all ≤ 0, whatever the line items' signs. -/
theorem c8_negative_totals (items : List LineItem) (klein : Bool)
    (t : DocumentType) (cid cust num notes : String) (terms : ℤ)
    (i s d p r : String)
    (ht : t = DocumentType.CREDIT_NOTE ∨ t = DocumentType.CANCELLATION) :
    (new_document cid cust t num items klein notes terms i s d p r).totals.net ≤ 0 ∧
    (new_document cid cust t num items klein notes terms i s d p r).totals.vat ≤ 0 ∧
    (new_document cid cust t num items klein notes terms i s d p r).totals.gross ≤ 0 ∧
    (calc_totals items klein t).net ≤ 0 ∧
    (calc_totals items klein t).vat ≤ 0 ∧
    (calc_totals items klein t).gross ≤ 0 := by
  unfold new_document calc_totals
  simp only [if_pos ht]
  refine ⟨?_, ?_, ?_, ?_, ?_, ?_⟩ <;>
    exact neg_nonpos.mpr (abs_nonneg _)

/-- C8 witness: the credit note mirroring the positive-total specimen
invoice's items has non-positive net, vat and gross. -/
theorem c8_negative_totals_witness :
    (DocumentType.CREDIT_NOTE = DocumentType.CREDIT_NOTE ∨
     DocumentType.CREDIT_NOTE = DocumentType.CANCELLATION) ∧
    (new_document "c1" "cust1" DocumentType.CREDIT_NOTE "GS-000001"
      [specimenItem] false "" 14 "2026-01-01" "" "2026-01-01" ""
      "inv1").totals.net ≤ 0 ∧
    (new_document "c1" "cust1" DocumentType.CREDIT_NOTE "GS-000001"
      [specimenItem] false "" 14 "2026-01-01" "" "2026-01-01" ""
      "inv1").totals.gross ≤ 0 :=
  ⟨Or.inl rfl,
   (c8_negative_totals [specimenItem] false DocumentType.CREDIT_NOTE
     "c1" "cust1" "GS-000001" "" 14 "2026-01-01" "" "2026-01-01" "" "inv1"
     (Or.inl rfl)).1,
   (c8_negative_totals [specimenItem] false DocumentType.CREDIT_NOTE
     "c1" "cust1" "GS-000001" "" 14 "2026-01-01" "" "2026-01-01" "" "inv1"
     (Or.inl rfl)).2.2.1⟩

/-- C6: on an INVOICE that is not CANCELLED, `create_partial_invoice`
fails with CapExceeded exactly when the sum of the absolute gross
totals of the existing PARTIAL_INVOICE children plus the requested
amount exceeds the invoice's absolute gross plus 0.01. -/
theorem c6_cap_check (document_id : String) (doc : Document)
    (children : List Document) (amount : ℚ) (klein : Bool)
    (number notes : String) (terms : ℤ) (today due : String)
    (ht : doc.document_type = DocumentType.INVOICE)
    (hs : doc.status ≠ DocumentStatus.CANCELLED) :
    createPartialInvoice document_id doc children amount klein number notes
        terms today due = Except.error DocErr.capExceeded ↔
      |doc.totals.gross| + 1/100 <
        ((children.filter
            (fun p => p.document_type = DocumentType.PARTIAL_INVOICE)).map
          (fun p => |p.totals.gross|)).sum + amount := by
  unfold createPartialInvoice
  rw [if_neg (by simp [ht]), if_neg hs]
  by_cases hc :
      |doc.totals.gross| + 1/100 <
        ((children.filter
            (fun p => p.document_type = DocumentType.PARTIAL_INVOICE)).map
          (fun p => |p.totals.gross|)).sum + amount
  · rw [if_pos hc]
    exact ⟨fun _ => hc, fun _ => rfl⟩
  · rw [if_neg hc]
    constructor
    · intro h
      exact absurd h (by simp)
    · intro h
      exact absurd h hc

/-- The first cap-respecting call of the specification's scenario:
a 200.00 payment on account against the 1073.98 specimen invoice. -/
def c6FirstCall : Except DocErr Document :=
  createPartialInvoice "inv1" specimenInvoice [] 200 false "TINV-000001" ""
    14 "2026-02-01" "2026-02-15"

/-- The PARTIAL_INVOICE child produced by `c6FirstCall` (the fallback
branch is never taken, as the witness verifies). -/
def c6Child : Document :=
  match c6FirstCall with
  | Except.ok d => d
  | Except.error _ => specimenInvoice

set_option maxRecDepth 4000 in
/-- C6 witness: on the specimen invoice (gross 1073.98),
a 200.00 request succeeds with a child of gross 200.00, and a
second 900.00 request fails with CapExceeded, the latter derived from
the general cap theorem. -/
theorem c6_cap_check_witness :
    (c6FirstCall.map fun d =>
      (d.document_type, d.related_document_id, d.totals.gross)) =
        Except.ok (DocumentType.PARTIAL_INVOICE, "inv1", 200) ∧
    createPartialInvoice "inv1" specimenInvoice [c6Child] 900 false
        "TINV-000002" "" 14 "2026-03-01" "2026-03-15" =
      Except.error DocErr.capExceeded :=
  ⟨by decide,
   (c6_cap_check "inv1" specimenInvoice [c6Child] 900 false "TINV-000002" ""
     14 "2026-03-01" "2026-03-15" (by decide) (by decide)).mpr (by decide)⟩

/-- C7: on an INVOICE or PARTIAL_INVOICE with status SENT, OVERDUE or
PARTIALLY_PAID, `add_reminder` assigns level = existing reminder
count + 1; it fails with LimitExceeded exactly when that level would
exceed MAX_REMINDER_LEVEL (3); on success the reminder list grows by
the one new level and the status is forced to OVERDUE unless it is
already OVERDUE or PARTIALLY_PAID. -/
theorem c7_reminder_levels (doc : Document) (fee : ℚ) (today : String)
    (htype : doc.document_type = DocumentType.INVOICE ∨
             doc.document_type = DocumentType.PARTIAL_INVOICE)
    (hstatus : doc.status = DocumentStatus.SENT ∨
               doc.status = DocumentStatus.OVERDUE ∨
               doc.status = DocumentStatus.PARTIALLY_PAID) :
    (add_reminder doc fee today = Except.error DocErr.limitExceeded ↔
      MAX_REMINDER_LEVEL < doc.reminders.length + 1) ∧
    (doc.reminders.length + 1 ≤ MAX_REMINDER_LEVEL →
      add_reminder doc fee today = Except.ok
        { doc with
          reminders := doc.reminders ++
            [{ level := doc.reminders.length + 1, date := today, fee := fee }]
          status :=
            if doc.status = DocumentStatus.OVERDUE ∨
               doc.status = DocumentStatus.PARTIALLY_PAID then doc.status
            else DocumentStatus.OVERDUE }) := by
  unfold add_reminder
  rw [if_neg (by simp [htype]), if_neg (by simp [hstatus])]
  constructor
  · by_cases hl : MAX_REMINDER_LEVEL < doc.reminders.length + 1
    · rw [if_pos hl]
      simp [hl]
    · rw [if_neg hl]
      constructor
      · intro h
        by_cases hov : doc.status = DocumentStatus.OVERDUE ∨
            doc.status = DocumentStatus.PARTIALLY_PAID
        · rw [if_neg (by simp [hov])] at h
          exact absurd h (by simp)
        · rw [if_pos (by simp [hov])] at h
          exact absurd h (by simp)
      · intro h
        exact absurd h hl
  · intro hle
    rw [if_neg (by omega)]
    by_cases hov : doc.status = DocumentStatus.OVERDUE ∨
        doc.status = DocumentStatus.PARTIALLY_PAID
    · rw [if_neg (by simp [hov]), if_pos hov]
    · rw [if_pos (by simp [hov]), if_neg hov]

/-- C7 witness: on the SENT specimen invoice with no prior reminders,
the general theorem yields a first reminder at level 1 and the status
forced to OVERDUE; a document that already holds three reminders is
rejected with LimitExceeded. -/
theorem c7_reminder_levels_witness :
    add_reminder specimenInvoiceSent 5 "2026-02-01" = Except.ok
      { specimenInvoiceSent with
        reminders := [{ level := 1, date := "2026-02-01", fee := 5 }]
        status := DocumentStatus.OVERDUE } ∧
    add_reminder
      { specimenInvoiceSent with
        reminders :=
          [{ level := 1, date := "d1", fee := 0 },
           { level := 2, date := "d2", fee := 0 },
           { level := 3, date := "d3", fee := 0 }] } 5 "2026-02-01" =
      Except.error DocErr.limitExceeded := by
  constructor
  · have h := (c7_reminder_levels specimenInvoiceSent 5 "2026-02-01"
      (Or.inl (by decide)) (Or.inl (by decide))).2 (by decide)
    exact h.trans (by decide)
  · exact (c7_reminder_levels
      { specimenInvoiceSent with
        reminders :=
          [{ level := 1, date := "d1", fee := 0 },
           { level := 2, date := "d2", fee := 0 },
           { level := 3, date := "d3", fee := 0 }] } 5 "2026-02-01"
      (Or.inl (by decide)) (Or.inl (by decide))).1.mpr (by decide)

/-- `apply_status` never touches the payments list. -/
lemma apply_status_payments (u : Document) (s : DocumentStatus) :
    (apply_status u s).payments = u.payments := by
  unfold apply_status
  split <;> rfl

/-- `apply_status` never touches the totals. -/
lemma apply_status_totals (u : Document) (s : DocumentStatus) :
    (apply_status u s).totals = u.totals := by
  unfold apply_status
  split <;> rfl

/-- `apply_status` leaves every non-status field unchanged. -/
lemma apply_status_document_type (u : Document) (s : DocumentStatus) :
    (apply_status u s).document_type = u.document_type := by
  unfold apply_status
  split <;> rfl

/-- `apply_status` leaves the parent back-reference unchanged. -/
lemma apply_status_related (u : Document) (s : DocumentStatus) :
    (apply_status u s).related_document_id = u.related_document_id := by
  unfold apply_status
  split <;> rfl

/-- `apply_status` leaves the document number unchanged. -/
lemma apply_status_document_number (u : Document) (s : DocumentStatus) :
    (apply_status u s).document_number = u.document_number := by
  unfold apply_status
  split <;> rfl

/-- The document stored after `apply_status` carries the computed
status, whether or not the conditional write fired. -/
lemma apply_status_status (u : Document) (s : DocumentStatus) :
    (apply_status u s).status = s := by
  unfold apply_status
  by_cases h : s = u.status
  · simp [h]
  · simp [h]

/-- C3: `paidAmount = 0` and `remainingAmount = gross` at creation,
and the repository's atomic payment append maintains
`remainingAmount = gross - paidAmount`; when gross and paid amount
are exact multiples of a hundredth that equality is literally
`remainingAmount = round(gross - paidAmount, 2)`. -/
theorem c3_remaining_invariant :
    (∀ (cid cust : String) (t : DocumentType) (num : String)
        (items : List LineItem) (klein : Bool) (notes : String) (terms : ℤ)
        (i s d p r : String),
      (new_document cid cust t num items klein notes terms i s d p
          r).totals.paid_amount = 0 ∧
      (new_document cid cust t num items klein notes terms i s d p
          r).totals.remaining_amount =
        (new_document cid cust t num items klein notes terms i s d p
          r).totals.gross) ∧
    (∀ (doc : Document) (payment : Payment),
      doc.totals.remaining_amount =
          doc.totals.gross - doc.totals.paid_amount →
        (repo_add_payment doc payment).totals.remaining_amount =
          (repo_add_payment doc payment).totals.gross -
            (repo_add_payment doc payment).totals.paid_amount) ∧
    (∀ (doc : Document) (payment : Payment) (g p : ℤ),
      doc.totals.remaining_amount =
          doc.totals.gross - doc.totals.paid_amount →
        (repo_add_payment doc payment).totals.gross = (g : ℚ) / 100 →
        (repo_add_payment doc payment).totals.paid_amount = (p : ℚ) / 100 →
        (repo_add_payment doc payment).totals.remaining_amount =
          round2 ((repo_add_payment doc payment).totals.gross -
            (repo_add_payment doc payment).totals.paid_amount)) := by
  refine ⟨fun _ _ _ _ _ _ _ _ _ _ _ _ _ => ⟨rfl, rfl⟩, ?_, ?_⟩
  · intro doc payment h
    simp only [repo_add_payment]
    rw [h]
    ring
  · intro doc payment g p h hg hp
    have h2 : (repo_add_payment doc payment).totals.remaining_amount =
        (repo_add_payment doc payment).totals.gross -
          (repo_add_payment doc payment).totals.paid_amount := by
      simp only [repo_add_payment]
      rw [h]
      ring
    rw [h2, hg, hp]
    have h3 : (g : ℚ) / 100 - (p : ℚ) / 100 = ((g - p : ℤ) : ℚ) / 100 := by
      push_cast
      ring
    rw [h3, round2_intDiv]

/-- C3 witness: paying the specimen invoice's full gross leaves
`remainingAmount = round(gross - paidAmount, 2) = 0.00`. -/
theorem c3_remaining_invariant_witness :
    (repo_add_payment specimenInvoiceSent
      { amount := 1073.98, date := "2026-02-01", method := "BANK",
        reference := "" }).totals.remaining_amount =
      round2 ((repo_add_payment specimenInvoiceSent
        { amount := 1073.98, date := "2026-02-01", method := "BANK",
          reference := "" }).totals.gross -
        (repo_add_payment specimenInvoiceSent
          { amount := 1073.98, date := "2026-02-01", method := "BANK",
            reference := "" }).totals.paid_amount) :=
  c3_remaining_invariant.2.2 specimenInvoiceSent
    { amount := 1073.98, date := "2026-02-01", method := "BANK",
      reference := "" } 107398 107398 (by decide) (by decide) (by decide)

/-- C2: on an INVOICE or PARTIAL_INVOICE whose status is neither
DRAFT, PAID nor CANCELLED, `add_payment` rejects
`amount > remaining + 0.01` with OverpaymentError; otherwise it
succeeds, appends the payment record, raises the paid amount by the
payment (lowering remaining by it), and sets the status to PAID when
`|paidAmount - |gross|| < 0.01`, else to PARTIALLY_PAID (the paid
amount is positive because the amount is and the prior paid amount
was non-negative). -/
theorem c2_add_payment (doc : Document) (amount : ℚ) (dateOpt : Option String)
    (today method : String) (lookup : String → Option Document)
    (htype : doc.document_type = DocumentType.INVOICE ∨
             doc.document_type = DocumentType.PARTIAL_INVOICE)
    (hs1 : doc.status ≠ DocumentStatus.DRAFT)
    (hs2 : doc.status ≠ DocumentStatus.PAID)
    (hs3 : doc.status ≠ DocumentStatus.CANCELLED)
    (hamt : 0 < amount) (hpaid : 0 ≤ doc.totals.paid_amount) :
    (doc.totals.remaining_amount + 1/100 < amount →
      add_payment doc amount dateOpt today method lookup =
        Except.error DocErr.overpayment) ∧
    (amount ≤ doc.totals.remaining_amount + 1/100 →
      ∃ child rest,
        add_payment doc amount dateOpt today method lookup =
          Except.ok (child, rest) ∧
        child.payments = doc.payments ++
          [{ amount := amount, date := payment_date_of dateOpt today,
             method := method, reference := "" }] ∧
        child.totals.paid_amount = doc.totals.paid_amount + amount ∧
        child.totals.remaining_amount =
          doc.totals.remaining_amount - amount ∧
        child.status =
          (if abs (doc.totals.paid_amount + amount - |doc.totals.gross|) <
              1/100 then DocumentStatus.PAID
           else DocumentStatus.PARTIALLY_PAID)) := by
  constructor
  · intro h
    unfold add_payment
    rw [if_neg (by simp [htype]), if_neg (by simp [hs1, hs2, hs3]),
      if_pos h]
  · intro h
    have hres :
        add_payment doc amount dateOpt today method lookup =
          Except.ok
            (apply_status
              (repo_add_payment doc
                { amount := amount, date := payment_date_of dateOpt today,
                  method := method, reference := "" })
              (payment_status_after
                (repo_add_payment doc
                  { amount := amount, date := payment_date_of dateOpt today,
                    method := method, reference := "" })),
             cascade_result
               (apply_status
                 (repo_add_payment doc
                   { amount := amount, date := payment_date_of dateOpt today,
                     method := method, reference := "" })
                 (payment_status_after
                   (repo_add_payment doc
                     { amount := amount, date := payment_date_of dateOpt today,
                       method := method, reference := "" })))
               (payment_status_after
                 (repo_add_payment doc
                   { amount := amount, date := payment_date_of dateOpt today,
                     method := method, reference := "" }))
               (payment_date_of dateOpt today) method lookup) := by
      unfold add_payment
      rw [if_neg (by simp [htype]), if_neg (by simp [hs1, hs2, hs3]),
        if_neg (not_lt.mpr h)]
    have hstat : payment_status_after
        (repo_add_payment doc
          { amount := amount, date := payment_date_of dateOpt today,
            method := method, reference := "" }) =
        (if abs (doc.totals.paid_amount + amount - |doc.totals.gross|) <
            1/100 then DocumentStatus.PAID
         else DocumentStatus.PARTIALLY_PAID) := by
      unfold payment_status_after repo_add_payment
      by_cases hc :
          abs (doc.totals.paid_amount + amount - |doc.totals.gross|) < 1/100
      · rw [if_pos hc, if_pos hc]
      · rw [if_neg hc, if_neg hc,
          if_pos (by positivity :
            (0 : ℚ) < doc.totals.paid_amount + amount)]
    refine ⟨_, _, hres, ?_, ?_, ?_, ?_⟩
    · rw [apply_status_payments]
      exact rfl
    · rw [apply_status_totals]
      exact rfl
    · rw [apply_status_totals]
      exact rfl
    · rw [apply_status_status, hstat]

/-- C2 witness: on the SENT specimen invoice (gross 1073.98,
remaining 1073.98), a 1073.98 payment yields status PAID and
remaining 0.00 (computed directly), and a 2000.00 payment fails with
OverpaymentError (derived from the general theorem). -/
theorem c2_add_payment_witness :
    ((add_payment specimenInvoiceSent 1073.98 none "2026-02-01" "BANK"
        noParent).map fun r =>
      (r.1.status, r.1.totals.remaining_amount, r.2)) =
        Except.ok (DocumentStatus.PAID, 0, none) ∧
    add_payment specimenInvoiceSent 2000 none "2026-02-01" "BANK" noParent =
      Except.error DocErr.overpayment :=
  ⟨by decide,
   (c2_add_payment specimenInvoiceSent 2000 none "2026-02-01" "BANK" noParent
     (Or.inl (by decide)) (by decide) (by decide) (by decide) (by decide)
     (by decide)).1 (by decide)⟩

/-- Field-level description of the parent document stored by the
cascade: the pushed payment record, the adjusted totals, and the
recomputed status. -/
lemma cascade_parent_update_fields (child parent : Document) (pd m : String) :
    (cascade_parent_update child pd m parent).payments =
      parent.payments ++
        [{ amount := |child.totals.gross|, date := pd, method := m,
           reference := "Abschlagsrechnung " ++ child.document_number }] ∧
    (cascade_parent_update child pd m parent).totals.paid_amount =
      parent.totals.paid_amount + |child.totals.gross| ∧
    (cascade_parent_update child pd m parent).totals.remaining_amount =
      parent.totals.remaining_amount - |child.totals.gross| ∧
    (cascade_parent_update child pd m parent).status =
      (if abs (parent.totals.paid_amount + |child.totals.gross| -
          |parent.totals.gross|) < 1/100 then DocumentStatus.PAID
       else if 0 < parent.totals.paid_amount + |child.totals.gross| then
         DocumentStatus.PARTIALLY_PAID
       else parent.status) := by
  unfold cascade_parent_update repo_add_payment
  dsimp only
  by_cases h1 : abs (parent.totals.paid_amount + |child.totals.gross| -
      |parent.totals.gross|) < 1/100
  · rw [if_pos h1, if_pos h1]
    exact ⟨rfl, rfl, rfl, rfl⟩
  · rw [if_neg h1, if_neg h1]
    by_cases h2 : 0 < parent.totals.paid_amount + |child.totals.gross|
    · rw [if_pos h2, if_pos h2]
      exact ⟨rfl, rfl, rfl, rfl⟩
    · rw [if_neg h2, if_neg h2]
      exact ⟨rfl, rfl, rfl, rfl⟩

/-- C4: when a payment makes a PARTIAL_INVOICE reach PAID and its
back-reference names an INVOICE found in the same tenant, the parent
receives a payment of the child's absolute gross with a reference
string naming the child's document number, and the parent's status
becomes PAID when within 0.01 of its absolute gross, else
PARTIALLY_PAID when anything is paid; when the parent lookup fails the
error is swallowed and the child payment still succeeds. -/
theorem c4_cascade_to_parent (doc : Document) (amount : ℚ)
    (dateOpt : Option String) (today method : String)
    (lookup : String → Option Document) (parent : Document)
    (htype : doc.document_type = DocumentType.PARTIAL_INVOICE)
    (hs1 : doc.status ≠ DocumentStatus.DRAFT)
    (hs2 : doc.status ≠ DocumentStatus.PAID)
    (hs3 : doc.status ≠ DocumentStatus.CANCELLED)
    (hrem : amount ≤ doc.totals.remaining_amount + 1/100)
    (hpaidfull :
      abs (doc.totals.paid_amount + amount - |doc.totals.gross|) < 1/100)
    (hrel : doc.related_document_id ≠ "") :
    (lookup doc.related_document_id = some parent →
      parent.document_type = DocumentType.INVOICE →
      ∃ child,
        add_payment doc amount dateOpt today method lookup =
          Except.ok (child,
            some (cascade_parent_update child (payment_date_of dateOpt today)
              method parent)) ∧
        child.status = DocumentStatus.PAID ∧
        child.totals.gross = doc.totals.gross ∧
        (cascade_parent_update child (payment_date_of dateOpt today) method
            parent).payments =
          parent.payments ++
            [{ amount := |doc.totals.gross|,
               date := payment_date_of dateOpt today, method := method,
               reference := "Abschlagsrechnung " ++ doc.document_number }] ∧
        (cascade_parent_update child (payment_date_of dateOpt today) method
            parent).totals.paid_amount =
          parent.totals.paid_amount + |doc.totals.gross| ∧
        (cascade_parent_update child (payment_date_of dateOpt today) method
            parent).status =
          (if abs (parent.totals.paid_amount + |doc.totals.gross| -
              |parent.totals.gross|) < 1/100 then DocumentStatus.PAID
           else if 0 < parent.totals.paid_amount + |doc.totals.gross| then
             DocumentStatus.PARTIALLY_PAID
           else parent.status)) ∧
    (lookup doc.related_document_id = none →
      ∃ child,
        add_payment doc amount dateOpt today method lookup =
          Except.ok (child, none) ∧
        child.status = DocumentStatus.PAID) := by
  have hres :
      add_payment doc amount dateOpt today method lookup =
        Except.ok
          (apply_status
            (repo_add_payment doc
              { amount := amount, date := payment_date_of dateOpt today,
                method := method, reference := "" })
            (payment_status_after
              (repo_add_payment doc
                { amount := amount, date := payment_date_of dateOpt today,
                  method := method, reference := "" })),
           cascade_result
             (apply_status
               (repo_add_payment doc
                 { amount := amount, date := payment_date_of dateOpt today,
                   method := method, reference := "" })
               (payment_status_after
                 (repo_add_payment doc
                   { amount := amount, date := payment_date_of dateOpt today,
                     method := method, reference := "" })))
             (payment_status_after
               (repo_add_payment doc
                 { amount := amount, date := payment_date_of dateOpt today,
                   method := method, reference := "" }))
             (payment_date_of dateOpt today) method lookup) := by
    unfold add_payment
    rw [if_neg (by simp [htype]), if_neg (by simp [hs1, hs2, hs3]),
      if_neg (not_lt.mpr hrem)]
  have hstatPAID :
      payment_status_after
        (repo_add_payment doc
          { amount := amount, date := payment_date_of dateOpt today,
            method := method, reference := "" }) = DocumentStatus.PAID := by
    unfold payment_status_after repo_add_payment
    dsimp only
    rw [if_pos hpaidfull]
  have hutype : ∀ s,
      (apply_status
        (repo_add_payment doc
          { amount := amount, date := payment_date_of dateOpt today,
            method := method, reference := "" }) s).document_type =
        DocumentType.PARTIAL_INVOICE := by
    intro s
    rw [apply_status_document_type]
    exact htype
  have hurel : ∀ s,
      (apply_status
        (repo_add_payment doc
          { amount := amount, date := payment_date_of dateOpt today,
            method := method, reference := "" }) s).related_document_id =
        doc.related_document_id := by
    intro s
    rw [apply_status_related]
    exact rfl
  have hugross : ∀ s,
      (apply_status
        (repo_add_payment doc
          { amount := amount, date := payment_date_of dateOpt today,
            method := method, reference := "" }) s).totals.gross =
        doc.totals.gross := by
    intro s
    rw [apply_status_totals]
    exact rfl
  have hunum : ∀ s,
      (apply_status
        (repo_add_payment doc
          { amount := amount, date := payment_date_of dateOpt today,
            method := method, reference := "" }) s).document_number =
        doc.document_number := by
    intro s
    rw [apply_status_document_number]
    exact rfl
  constructor
  · intro hlook hptype
    refine ⟨_, ?_, ?_,
      hugross (payment_status_after (repo_add_payment doc
        { amount := amount, date := payment_date_of dateOpt today,
          method := method, reference := "" })), ?_, ?_, ?_⟩
    · rw [hres, hstatPAID]
      unfold cascade_result
      rw [if_pos ⟨hutype _, rfl, by rw [hurel _]; exact hrel⟩, hurel _, hlook]
      dsimp only
      rw [if_pos hptype]
    · rw [apply_status_status, hstatPAID]
    · rw [(cascade_parent_update_fields _ parent _ method).1, hugross _,
        hunum _]
    · rw [(cascade_parent_update_fields _ parent _ method).2.1, hugross _]
    · rw [(cascade_parent_update_fields _ parent _ method).2.2.2, hugross _]
  · intro hlook
    refine ⟨apply_status
        (repo_add_payment doc
          { amount := amount, date := payment_date_of dateOpt today,
            method := method, reference := "" })
        (payment_status_after
          (repo_add_payment doc
            { amount := amount, date := payment_date_of dateOpt today,
              method := method, reference := "" })), ?_, ?_⟩
    · rw [hres, hstatPAID]
      unfold cascade_result
      rw [if_pos ⟨hutype _, rfl, by rw [hurel _]; exact hrel⟩, hurel _, hlook]
    · rw [apply_status_status, hstatPAID]

/-- The 200.00 child of the specimen invoice, after DRAFT→SENT. -/
def c4ChildSent : Document := { c6Child with status := DocumentStatus.SENT }

/-- A parent lookup that resolves the specimen invoice's id. -/
def c4Lookup : String → Option Document :=
  fun i => if i = "inv1" then some specimenInvoiceSent else none

set_option maxRecDepth 8000 in
/-- C4 witness: fully paying the 200.00 PARTIAL_INVOICE child makes it
PAID and cascades a 200.00 payment carrying the reference
"Abschlagsrechnung TINV-000001" onto the parent invoice, which becomes
PARTIALLY_PAID; with a failing parent lookup the child payment still
succeeds (derived from the general cascade theorem). -/
theorem c4_cascade_to_parent_witness :
    ((add_payment c4ChildSent 200 none "2026-03-01" "BANK" c4Lookup).map
      (fun r => (r.1.status, r.2.map (fun par =>
        (par.status, par.totals.paid_amount,
         par.payments.map Payment.reference))))) =
      Except.ok (DocumentStatus.PAID,
        some (DocumentStatus.PARTIALLY_PAID, 200,
          ["Abschlagsrechnung TINV-000001"])) ∧
    ((add_payment c4ChildSent 200 none "2026-03-01" "BANK" noParent).map
      (fun r => (r.1.status, r.2))) =
      Except.ok (DocumentStatus.PAID, none) := by
  constructor
  · decide
  · obtain ⟨child, h1, h2⟩ :=
      (c4_cascade_to_parent c4ChildSent 200 none "2026-03-01" "BANK" noParent
        specimenInvoiceSent (by decide) (by decide) (by decide) (by decide)
        (by decide) (by decide) (by decide)).2 rfl
    rw [h1, Except.map, h2]

/-- Mapping the Kleinunternehmer VAT zeroing over items that already
have zero VAT and gross equal to net changes nothing. -/
lemma map_zeroVatItem_eq_self (l : List LineItem)
    (h : ∀ it ∈ l, it.vat_amount = 0 ∧ it.gross_amount = it.net_amount) :
    l.map zeroVatItem = l := by
  induction l with
  | nil => rfl
  | cons a t ih =>
    have ha := h a (List.mem_cons_self a t)
    have ht := ih (fun it hit => h it (List.mem_cons_of_mem a hit))
    simp only [List.map_cons, ht]
    obtain ⟨h1, h2⟩ := ha
    unfold zeroVatItem
    cases a
    simp_all

/-- C9: whenever `update_status` legally moves a QUOTE to ACCEPTED, an
ORDER_CONFIRMATION document is synthesized as a side effect of that
same call: it carries the quote's items (an independent value copy —
the model is pure, so value equality is the copy guarantee), the same
customer, `relatedDocumentRef` equal to the quote's id, auto-generated
notes naming the quote's document number, the freshly allocated
number, and status DRAFT.  (For a Kleinunternehmer quote the stored
items are already VAT-normalized, which the last hypothesis
records.) -/
theorem c9_accepted_quote_order_confirmation (document_id : String)
    (doc : Document) (order_number envToday envDue : String)
    (htype : doc.document_type = DocumentType.QUOTE)
    (hvalid : validate_status_transition doc.document_type doc.status
      DocumentStatus.ACCEPTED = Except.ok ())
    (hnorm : doc.is_kleinunternehmer = true →
      ∀ it ∈ doc.items, it.vat_amount = 0 ∧ it.gross_amount = it.net_amount) :
    update_status document_id doc DocumentStatus.ACCEPTED order_number
        envToday envDue =
      Except.ok ({ doc with status := DocumentStatus.ACCEPTED },
        some (create_order_confirmation_from_quote document_id
          { doc with status := DocumentStatus.ACCEPTED } order_number
          envToday envDue)) ∧
    (create_order_confirmation_from_quote document_id
        { doc with status := DocumentStatus.ACCEPTED } order_number
        envToday envDue).items = doc.items ∧
    (create_order_confirmation_from_quote document_id
        { doc with status := DocumentStatus.ACCEPTED } order_number
        envToday envDue).customer_id = doc.customer_id ∧
    (create_order_confirmation_from_quote document_id
        { doc with status := DocumentStatus.ACCEPTED } order_number
        envToday envDue).related_document_id = document_id ∧
    (create_order_confirmation_from_quote document_id
        { doc with status := DocumentStatus.ACCEPTED } order_number
        envToday envDue).notes =
      "Auftragsbestätigung zu Angebot " ++ doc.document_number ∧
    (create_order_confirmation_from_quote document_id
        { doc with status := DocumentStatus.ACCEPTED } order_number
        envToday envDue).document_number = order_number ∧
    (create_order_confirmation_from_quote document_id
        { doc with status := DocumentStatus.ACCEPTED } order_number
        envToday envDue).document_type = DocumentType.ORDER_CONFIRMATION ∧
    (create_order_confirmation_from_quote document_id
        { doc with status := DocumentStatus.ACCEPTED } order_number
        envToday envDue).status = DocumentStatus.DRAFT := by
  refine ⟨?_, ?_, rfl, rfl, rfl, rfl, rfl, rfl⟩
  · unfold update_status
    rw [hvalid]
    dsimp only
    rw [if_pos ⟨htype, rfl⟩]
  · unfold create_order_confirmation_from_quote new_document
    dsimp only
    cases hk : doc.is_kleinunternehmer with
    | false => rw [if_neg (by decide)]
    | true => rw [if_pos rfl, map_zeroVatItem_eq_self doc.items (hnorm hk)]

/-- The specimen one-item QUOTE after DRAFT→SENT. -/
def specimenQuoteSent : Document :=
  { new_document "c1" "cust1" DocumentType.QUOTE "QUO-000001" [specimenItem]
      false "" 14 "2026-01-01" "" "2026-01-15" "" "" with
    status := DocumentStatus.SENT }

set_option maxRecDepth 8000 in
/-- C9 witness: accepting the SENT specimen quote returns the ACCEPTED
quote plus an ORDER_CONFIRMATION in DRAFT that references the quote id
"q1", copies its single item and customer, and carries the
auto-generated notes and the freshly allocated number. -/
theorem c9_accepted_quote_order_confirmation_witness :
    ((update_status "q1" specimenQuoteSent DocumentStatus.ACCEPTED
        "AB-000001" "2026-02-01" "2026-02-15").map (fun r =>
      (r.1.status, r.2.map (fun o =>
        (o.document_type, o.status, o.related_document_id,
         o.document_number, o.customer_id, o.notes, o.items))))) =
      Except.ok (DocumentStatus.ACCEPTED,
        some (DocumentType.ORDER_CONFIRMATION, DocumentStatus.DRAFT, "q1",
          "AB-000001", "cust1",
          "Auftragsbestätigung zu Angebot QUO-000001", [specimenItem])) := by
  have h := (c9_accepted_quote_order_confirmation "q1" specimenQuoteSent
    "AB-000001" "2026-02-01" "2026-02-15" (by decide) (by decide)
    (fun hk => absurd hk (by decide))).1
  rw [h]
  rfl

/-- The C10 parent invoice: one VAT-free line of 1000.00. -/
def c10Parent0 : Document :=
  new_document "c" "cust" DocumentType.INVOICE "INV-000100"
    [new_line_item "" "Leistung" "" 1 "Stk" 1000 0 0] false "" 14
    "2026-01-01" "" "2026-01-15" "" ""

/-- The C10 parent after DRAFT→SENT. -/
def c10ParentSent : Document := { c10Parent0 with status := DocumentStatus.SENT }

/-- The C10 parent after a direct payment of 900.00 (the error branch
is never taken, as the theorem verifies). -/
def c10Parent900 : Document :=
  match add_payment c10ParentSent 900 none "2026-02-01" "BANK" noParent with
  | Except.ok (d, _) => d
  | Except.error _ => c10ParentSent

/-- The C10 PARTIAL_INVOICE child of 200.00 (the error branch is never
taken, as the theorem verifies). -/
def c10Child0 : Document :=
  match createPartialInvoice "p100" c10ParentSent [] 200 false "TINV-000100"
      "" 14 "2026-02-02" "2026-02-16" with
  | Except.ok d => d
  | Except.error _ => c10ParentSent

/-- The C10 child after DRAFT→SENT. -/
def c10ChildSent : Document := { c10Child0 with status := DocumentStatus.SENT }

/-- The lookup resolving the C10 parent in its PARTIALLY_PAID state. -/
def c10Lookup : String → Option Document :=
  fun i => if i = "p100" then some c10Parent900 else none

set_option maxRecDepth 8000 in
/-- C10: the cascade payment is not subject to the overpayment check.
In the reachable state built here — an invoice of gross 1000.00 is
SENT, receives a direct payment of 900.00 (remaining 100.00), and has
a 200.00 PARTIAL_INVOICE child which is then fully paid — the child's
absolute gross 200.00 exceeds the parent's remaining 100.00 plus 0.01,
yet `add_payment` appends the full 200.00 cascade payment to the
parent without OverpaymentError, leaving the parent with
paidAmount 1100.00 above its gross 1000.00, remainingAmount -100.00,
and status PARTIALLY_PAID. -/
theorem c10_cascade_bypasses_overpayment_check :
    update_status "p100" c10Parent0 DocumentStatus.SENT "x" "t" "d" =
      Except.ok (c10ParentSent, none) ∧
    add_payment c10ParentSent 900 none "2026-02-01" "BANK" noParent =
      Except.ok (c10Parent900, none) ∧
    createPartialInvoice "p100" c10ParentSent [] 200 false "TINV-000100" ""
      14 "2026-02-02" "2026-02-16" = Except.ok c10Child0 ∧
    update_status "ch100" c10Child0 DocumentStatus.SENT "x" "t" "d" =
      Except.ok (c10ChildSent, none) ∧
    c10Parent900.totals.remaining_amount = 100 ∧
    c10Parent900.totals.remaining_amount + 1/100 < |c10ChildSent.totals.gross| ∧
    ((add_payment c10ChildSent 200 none "2026-03-01" "BANK" c10Lookup).map
      (fun r => (r.1.status, r.2.map (fun par =>
        (par.totals.paid_amount, par.totals.gross,
         par.totals.remaining_amount, par.status,
         par.payments.map Payment.reference))))) =
      Except.ok (DocumentStatus.PAID,
        some (1100, 1000, -100, DocumentStatus.PARTIALLY_PAID,
          ["", "Abschlagsrechnung TINV-000100"])) := by
  refine ⟨by decide, by decide, by decide, by decide, by decide, by decide,
    by rfl⟩

end ReSoftware
